import Mathlib

/-!
# Verification of the remy-mcp search/translation layer

Shallow embedding of the Israeli Land Authority tender client
(`src/remy_mcp/client/israeli_land_api.py`), the tool façade
(`src/remy_mcp/tools/tender_tools.py`, `src/remy_mcp/tools/settlement_tools.py`)
and the settlement catalog model (`src/remy_mcp/models/reference_models.py`),
together with theorems settling the frozen claims about this code.

Conventions of the embedding:
* Python `dict` payloads are association lists `List (String × JVal)` built in
  the exact key-insertion order of the source; every key is written at most
  once by the source, so the list representation is exact.
* Python truthiness tests (`if x:`) on `Optional` values are modelled by the
  `truthy*` functions below (`None`, `""`, `[]`, `0` are falsy; `datetime`
  objects and pydantic models are always truthy).
* Python slice expressions `l[a:b]` (including negative indices) are modelled
  by `pySlice`.
* Code paths that raise exceptions are modelled with `Option`/`Except`; the
  façade's `try/except` wrappers map the `none`/`.error` outcome to the
  failure envelope.
-/

/-- JSON-like values, the shape of request payloads and upstream records. -/
inductive JVal where
  | null : JVal
  | bool : Bool → JVal
  | num : Int → JVal
  | str : String → JVal
  | arr : List JVal → JVal
  | obj : List (String × JVal) → JVal

/-- Python truthiness of an `Optional[str]` (`None` and `""` are falsy). -/
def truthyStr : Option String → Bool
  | some s => s ≠ ""
  | none => false

/-- Python truthiness of an `Optional[int]` (`None` and `0` are falsy). -/
def truthyInt : Option Int → Bool
  | some n => n ≠ 0
  | none => false

/-- Python truthiness of an `Optional[List[int]]` (`None` and `[]` are falsy). -/
def truthyList : Option (List Int) → Bool
  | some l => !l.isEmpty
  | none => false

/-- First value stored under `key`, Python `dict` lookup on the payload. -/
def getKey : List (String × JVal) → String → Option JVal
  | [], _ => none
  | (k, v) :: rest, key => if k = key then some v else getKey rest key

/-- Python `key in dict` on the payload. -/
def hasKey (pl : List (String × JVal)) (key : String) : Bool :=
  (getKey pl key).isSome

/-! ## Dates

The client formats `datetime` values with `strftime("%d/%m/%y")` and the tool
parses the user-supplied strings with `strptime("%d/%m/%y")`.  `PyDate` models
the `datetime` values flowing between the two. -/

/-- A Python `datetime` restricted to its date part, which is all the code
formats (`%d/%m/%y`). -/
structure PyDate where
  year : Int
  month : Int
  day : Int

/-- Number of days in a month of the (proleptic) Gregorian calendar, used by
`strptime` validation and by `timedelta` arithmetic. -/
def daysInMonth (y m : Int) : Int :=
  if m = 2 then (if y % 4 = 0 && (y % 100 ≠ 0 || y % 400 = 0) then 29 else 28)
  else if m = 4 || m = 6 || m = 9 || m = 11 then 30
  else 31

/-- Day number of a civil date (days since 1970-01-01, Gregorian). -/
def daysFromCivil (y m d : Int) : Int :=
  let y1 := if m ≤ 2 then y - 1 else y
  let era := Int.ediv y1 400
  let yoe := y1 - era * 400
  let mp := Int.emod (m + 9) 12
  let doy := Int.ediv (153 * mp + 2) 5 + d - 1
  let doe := yoe * 365 + Int.ediv yoe 4 - Int.ediv yoe 100 + doy
  era * 146097 + doe - 719468

/-- Civil date (year, month, day) of a day number, inverse of `daysFromCivil`. -/
def civilFromDays (z0 : Int) : Int × Int × Int :=
  let z := z0 + 719468
  let era := Int.ediv z 146097
  let doe := z - era * 146097
  let yoe := Int.ediv (doe - Int.ediv doe 1460 + Int.ediv doe 36524 - Int.ediv doe 146096) 365
  let y := yoe + era * 400
  let doy := doe - (365 * yoe + Int.ediv yoe 4 - Int.ediv yoe 100)
  let mp := Int.ediv (5 * doy + 2) 153
  let d := doy - Int.ediv (153 * mp + 2) 5 + 1
  let m := mp + (if mp < 10 then 3 else -9)
  (if m ≤ 2 then y + 1 else y, m, d)

/-- `datetime - timedelta(days=n)`, as used by the legacy `days_back` path. -/
def subDays (dt : PyDate) (n : Int) : PyDate :=
  let c := civilFromDays (daysFromCivil dt.year dt.month dt.day - n)
  ⟨c.1, c.2.1, c.2.2⟩

/-- Zero-padded two-digit rendering, `strftime`'s `%d`/`%m`/`%y` field format. -/
def pad2 (n : Int) : String :=
  if n < 10 then "0" ++ toString n else toString n

/-- `datetime.strftime("%d/%m/%y")`. -/
def strftimeDDMMYY (dt : PyDate) : String :=
  pad2 dt.day ++ "/" ++ pad2 dt.month ++ "/" ++ pad2 (Int.emod dt.year 100)

/-- `datetime.strptime(s, "%d/%m/%y")`: day/month/two-digit-year split on `/`,
range-checked; the two-digit year maps to 2000–2068 / 1969–1999 per `%y`.
Returns `none` where `strptime` raises `ValueError`. -/
def parseDDMMYY (s : String) : Option PyDate :=
  match (s.splitOn "/").map String.toNat? with
  | [some d, some m, some y2] =>
    if 1 ≤ m && m ≤ 12 && y2 ≤ 99 then
      let y : Int := if y2 ≤ 68 then 2000 + (y2 : Int) else 1900 + (y2 : Int)
      if 1 ≤ (d : Int) && (d : Int) ≤ daysInMonth y m then some ⟨y, m, d⟩ else none
    else none
  | _ => none

/-! ## Query Builder (`IsraeliLandAPI.search_tenders`, payload construction)

The parameters of the client method, then the payload built from them in the
exact order and under the exact conditions of lines 123–186 of
`israeli_land_api.py`.  Each `if`-guarded insertion of the source is one
segment function; `buildPayload` is their concatenation in source order. -/

/-- The keyword parameters of `IsraeliLandAPI.search_tenders`, with the
source's defaults. -/
structure ClientParams where
  tender_number : Option String := none
  tender_types : Option (List Int) := none
  settlement : Option String := none
  kod_yeshuv : Option Int := none
  neighborhood : Option String := none
  purpose : Option String := none
  region : Option String := none
  submission_date_from : Option PyDate := none
  submission_date_to : Option PyDate := none
  publication_date_from : Option PyDate := none
  publication_date_to : Option PyDate := none
  committee_date_from : Option PyDate := none
  committee_date_to : Option PyDate := none
  tender_purposes : Option (List Int) := none
  regions : Option (List Int) := none
  tender_statuses : Option (List Int) := none
  priority_populations : Option (List Int) := none
  active_only : Bool := false
  quick_search : Bool := false
  has_results : Option Bool := none
  sort_by : Option String := none
  sort_order : Option String := none
  page_size : Int := 100
  page_number : Int := 1

/-- The two unconditional flags: `{"ActiveQuickSearch": ..., "ActiveMichraz": ...}`. -/
def flagSeg (quick_search active_only : Bool) : List (String × JVal) :=
  [("ActiveQuickSearch", .bool quick_search), ("ActiveMichraz", .bool active_only)]

/-- `if v: payload[key] = v` for an optional string parameter. -/
def strSeg (key : String) : Option String → List (String × JVal)
  | some s => if s = "" then [] else [(key, .str s)]
  | none => []

/-- `if v: payload[key] = v` for an optional int-list parameter. -/
def listSeg (key : String) : Option (List Int) → List (String × JVal)
  | some l => if l.isEmpty then [] else [(key, .arr (l.map JVal.num))]
  | none => []

/-- Lines 131–136: `if kod_yeshuv: payload["KodYeshuv"] = kod_yeshuv
elif settlement: payload["Yishuv"] = settlement`. -/
def locSeg (kod_yeshuv : Option Int) (settlement : Option String) : List (String × JVal) :=
  match kod_yeshuv with
  | some k => if k = 0 then strSeg "Yishuv" settlement else [("KodYeshuv", .num k)]
  | none => strSeg "Yishuv" settlement

/-- Lines 151–172: a date-range sub-object emitted only when at least one
bound is present, each bound rendered with `strftime("%d/%m/%y")`. -/
def dateSeg (key : String) (f t : Option PyDate) : List (String × JVal) :=
  if f.isNone && t.isNone then []
  else
    [(key, .obj ((match f with
        | some d => [("from", JVal.str (strftimeDDMMYY d))]
        | none => []) ++
      (match t with
        | some d => [("to", JVal.str (strftimeDDMMYY d))]
        | none => [])))]

/-- Lines 175–178: legacy free-text field, emitted only when its structured
replacement list is absent/empty. -/
def condStrSeg (key : String) (v : Option String) (structured : Option (List Int)) :
    List (String × JVal) :=
  if truthyList structured then [] else strSeg key v

/-- Line 181–182: `if has_results is not None` (note: `is not None`, not
truthiness — `False` is still emitted). -/
def boolSeg (key : String) : Option Bool → List (String × JVal)
  | some b => [(key, .bool b)]
  | none => []

/-- The payload built by `IsraeliLandAPI.search_tenders` (lines 123–186),
segments concatenated in the source's insertion order. -/
def buildPayload (p : ClientParams) : List (String × JVal) :=
  flagSeg p.quick_search p.active_only ++
  strSeg "MisMichraz" p.tender_number ++
  listSeg "SugMichraz" p.tender_types ++
  locSeg p.kod_yeshuv p.settlement ++
  strSeg "Shchuna" p.neighborhood ++
  listSeg "YeudMichraz" p.tender_purposes ++
  listSeg "Merchav" p.regions ++
  listSeg "StatusMichraz" p.tender_statuses ++
  listSeg "PriorityPopulations" p.priority_populations ++
  dateSeg "CloseDate" p.submission_date_from p.submission_date_to ++
  dateSeg "VaadaDate" p.committee_date_from p.committee_date_to ++
  dateSeg "PirsumDate" p.publication_date_from p.publication_date_to ++
  condStrSeg "purpose" p.purpose p.tender_purposes ++
  condStrSeg "region" p.region p.regions ++
  boolSeg "hasResults" p.has_results ++
  strSeg "sortBy" p.sort_by ++
  strSeg "sortOrder" p.sort_order

/-! ### Key-lookup lemmas for the payload segments -/

theorem getKey_append (a b : List (String × JVal)) (k : String) :
    getKey (a ++ b) k = match getKey a k with
      | some v => some v
      | none => getKey b k := by
  induction a with
  | nil => rfl
  | cons kv rest ih =>
    by_cases h : kv.1 = k
    · simp [getKey, h]
    · simp only [List.cons_append]
      rw [show (kv :: (rest ++ b)) = (kv.1, kv.2) :: (rest ++ b) from rfl]
      simp [getKey, h, ih]

theorem getKey_strSeg_ne {k key : String} (h : k ≠ key) (v : Option String) :
    getKey (strSeg k v) key = none := by
  cases v with
  | none => rfl
  | some s =>
    by_cases hs : s = "" <;> simp [strSeg, hs, getKey, h]

theorem getKey_listSeg_ne {k key : String} (h : k ≠ key) (v : Option (List Int)) :
    getKey (listSeg k v) key = none := by
  cases v with
  | none => rfl
  | some l =>
    by_cases hl : l.isEmpty <;> simp [listSeg, hl, getKey, h]

theorem getKey_dateSeg_ne {k key : String} (h : k ≠ key) (f t : Option PyDate) :
    getKey (dateSeg k f t) key = none := by
  cases f <;> cases t <;> simp [dateSeg, getKey, h]

theorem getKey_dateSeg_self (k : String) (f t : Option PyDate) :
    getKey (dateSeg k f t) k =
      if f.isNone && t.isNone then none
      else some (.obj ((match f with
          | some d => [("from", JVal.str (strftimeDDMMYY d))]
          | none => []) ++
        (match t with
          | some d => [("to", JVal.str (strftimeDDMMYY d))]
          | none => []))) := by
  cases f <;> cases t <;> simp [dateSeg, getKey]

theorem getKey_boolSeg_ne {k key : String} (h : k ≠ key) (v : Option Bool) :
    getKey (boolSeg k v) key = none := by
  cases v <;> simp [boolSeg, getKey, h]

theorem getKey_condStrSeg_ne {k key : String} (h : k ≠ key) (v : Option String)
    (structured : Option (List Int)) :
    getKey (condStrSeg k v structured) key = none := by
  by_cases hs : truthyList structured <;>
    simp [condStrSeg, hs, getKey, getKey_strSeg_ne h]

theorem getKey_locSeg_ne {key : String} (h1 : key ≠ "KodYeshuv") (h2 : key ≠ "Yishuv")
    (kod : Option Int) (st : Option String) :
    getKey (locSeg kod st) key = none := by
  cases kod with
  | none => exact getKey_strSeg_ne (Ne.symm h2) st
  | some k =>
    by_cases hk : k = 0
    · simp only [locSeg, hk, if_pos rfl]
      exact getKey_strSeg_ne (Ne.symm h2) st
    · simp [locSeg, hk, getKey, Ne.symm h1]

theorem getKey_flagSeg_ne {key : String} (h1 : key ≠ "ActiveQuickSearch")
    (h2 : key ≠ "ActiveMichraz") (qs ao : Bool) :
    getKey (flagSeg qs ao) key = none := by
  simp [flagSeg, getKey, Ne.symm h1, Ne.symm h2]

/-! ## Pagination Adapter (client-side slicing, lines 199–211)

`pySlice` is Python's `l[a:b]` for arbitrary integer bounds (positive step):
negative indices count from the end, out-of-range indices clamp. -/

/-- Normalize a Python slice index against a list length. -/
def pyNorm (i : Int) (len : Nat) : Nat :=
  if i < 0 then (len + i).toNat else min i.toNat len

/-- Python `l[a:b]` (step 1). -/
def pySlice {α : Type} (l : List α) (a b : Int) : List α :=
  (l.take (pyNorm b l.length)).drop (pyNorm a l.length)

/-- An upstream `POST /SearchApi/Search` response body: either a bare JSON
array of tender records or a JSON object (possibly carrying a `results` key). -/
inductive Resp where
  | list : List JVal → Resp
  | obj : List (String × JVal) → Resp

/-- Python slicing of a JSON value: arrays and strings are sliceable; any
other shape raises `TypeError` (modelled as `none`). -/
def jvalSlice : JVal → Int → Int → Option JVal
  | .arr xs, a, b => some (.arr (pySlice xs a b))
  | .str s, a, b => some (.str (pySlice s.toList a b).asString)
  | _, _, _ => none

/-- Client-side pagination of the upstream response
(`IsraeliLandAPI.search_tenders`, lines 199–211): a bare list is sliced
directly; an object with a `results` key has that value sliced in place,
other keys untouched; an object without `results` is returned unchanged.
`none` models the `TypeError` raised when a present `results` value is not
sliceable. -/
def clientPaginate (raw : Resp) (page_size page_number : Int) : Option Resp :=
  match raw with
  | .list data =>
    some (.list (pySlice data ((page_number - 1) * page_size)
      ((page_number - 1) * page_size + page_size)))
  | .obj kvs =>
    if hasKey kvs "results" then
      match getKey kvs "results" with
      | some v =>
        (jvalSlice v ((page_number - 1) * page_size)
            ((page_number - 1) * page_size + page_size)).map
          (fun v1 => Resp.obj (kvs.map (fun kv => if kv.1 = "results" then (kv.1, v1) else kv)))
      | none => some (.obj kvs)
    else some (.obj kvs)

/-! ## Settlement catalog and resolver

The settlement table itself (`data/kod_yeshuv.py`, imported by
`reference_models.py`) is loaded from a static source; the resolver and the
tools are parametrized by the catalog, in table order. -/

/-- `Settlement` model of `reference_models.py`: code and Hebrew name. -/
structure Settlement where
  kod_yeshuv : Int
  name_hebrew : String

/-- `a in b` on Python strings: substring containment (char-list infix). -/
def charsHasPre : List Char → List Char → Bool
  | [], _ => true
  | _ :: _, [] => false
  | x :: xs, y :: ys => x = y && charsHasPre xs ys

/-- Whether `a` occurs as a contiguous run inside `b`. -/
def charsHasSub (a b : List Char) : Bool :=
  charsHasPre a b ||
    match b with
    | [] => false
    | _ :: bs => charsHasSub a bs

/-- Python `a in b` for strings. -/
def strIn (a b : String) : Bool :=
  charsHasSub a.toList b.toList

/-- Python `str.strip()` (ASCII whitespace at both ends). -/
def pyStrip (s : String) : String :=
  ((s.toList.dropWhile Char.isWhitespace).reverse.dropWhile Char.isWhitespace).reverse.asString

/-- Python `str.lower()` (ASCII case folding; the catalog names are Hebrew,
which has no case). -/
def pyLower (s : String) : String :=
  (s.toList.map Char.toLower).asString

/-- The bidirectional case-insensitive containment test of
`settlement_tools.py` lines 38–40. -/
def nearPred (query : String) (s : Settlement) : Bool :=
  strIn (pyLower query) (pyLower s.name_hebrew) || strIn (pyLower s.name_hebrew) (pyLower query)

/-- The exact-match scan of `settlement_tools.py` lines 25–26 (first catalog
entry whose Hebrew name equals the trimmed query, case-sensitive). -/
def exactFind (catalog : List Settlement) (name : String) : Option Settlement :=
  catalog.find? (fun s => s.name_hebrew = name)

/-- Return value of the `get_kod_yeshuv` tool: the three envelope shapes of
`settlement_tools.py` (exact hit / partial-match list / structured failure).
The Python body cannot raise (its `except` arm is unreachable), so the
embedding is a total function. -/
inductive KodResult where
  | exactHit : (settlement_name : String) → (kod_yeshuv : Int) → KodResult
  | nearHits : (searched_name : String) → (hits : List (String × Int)) → KodResult
  | noHit : (searched_name : String) → (error : String) → (suggestion : String) → KodResult

/-- The `match_type` field of the envelope (`"exact"` / `"partial"`; absent on
failure). -/
def matchTypeOf : KodResult → Option String
  | .exactHit _ _ => some "exact"
  | .nearHits _ _ => some "partial"
  | .noHit _ _ _ => none

/-- The `success` field of the envelope. -/
def successOf : KodResult → Bool
  | .noHit _ _ _ => false
  | _ => true

/-- The `get_kod_yeshuv` tool (`settlement_tools.py` lines 21–64): trim, exact
scan, else bidirectional case-insensitive partial scan truncated to 10, else
structured failure. -/
def getKodYeshuv (catalog : List Settlement) (raw_name : String) : KodResult :=
  match exactFind catalog (pyStrip raw_name) with
  | some s => .exactHit (pyStrip raw_name) s.kod_yeshuv
  | none =>
    if ((catalog.filter (nearPred (pyStrip raw_name))).map
        (fun s => (s.name_hebrew, s.kod_yeshuv))).isEmpty then
      .noHit (pyStrip raw_name)
        ("No settlement found matching \x27" ++ pyStrip raw_name ++ "\x27")
        "Try using the exact Hebrew name or check the settlement name spelling"
    else
      .nearHits (pyStrip raw_name)
        (((catalog.filter (nearPred (pyStrip raw_name))).map
          (fun s => (s.name_hebrew, s.kod_yeshuv))).take 10)

/-! ## Tool Façade: `search_tenders` (`tender_tools.py` lines 21–155) -/

/-- The `DateRange` argument model of `arg_models.py`. -/
structure DateRange where
  from_date : Option String := none
  to_date : Option String := none

/-- `SearchTendersArgs` of `arg_models.py` (defaults as declared there).
Note: the model has no `page_size`/`page_number` fields. -/
structure ToolArgs where
  tender_number : Option String := none
  tender_types : Option (List Int) := none
  settlement : Option String := none
  kod_yeshuv : Option Int := none
  neighborhood : Option String := none
  tender_purposes : Option (List Int) := none
  regions : Option (List Int) := none
  tender_statuses : Option (List Int) := none
  submission_deadline : Option DateRange := none
  committee_date : Option DateRange := none
  publication_date : Option DateRange := none
  priority_populations : Option (List Int) := none
  active_only : Bool := false
  quick_search : Bool := false
  max_results : Int := 100
  purpose : Option String := none
  region : Option String := none
  days_back : Option Int := none

/-- One bound of a tool-level date range: absent / falsy-empty strings are
skipped, anything else goes through `strptime` (whose `ValueError` is the
outer `none`). -/
def parseBound : Option String → Option (Option PyDate)
  | none => some none
  | some s => if s = "" then some none else (parseDDMMYY s).map some

/-- Both bounds of an optional tool-level date range (`tender_tools.py`
lines 36–54 / 76–84); a pydantic model is always truthy, so `none` means the
whole range is absent. -/
def parseDR : Option DateRange → Option (Option PyDate × Option PyDate)
  | none => some (none, none)
  | some dr => do
    let f ← parseBound dr.from_date
    let t ← parseBound dr.to_date
    pure (f, t)

/-- Settlement-name to code conversion of `tender_tools.py` lines 65–71:
runs only when a settlement name is truthy and `kod_yeshuv` is falsy; the
first exact (trimmed) catalog match wins, otherwise the original value is
kept. -/
def resolveFinalKod (catalog : List Settlement) (args : ToolArgs) : Option Int :=
  if truthyStr args.settlement && !truthyInt args.kod_yeshuv then
    match exactFind catalog (pyStrip (args.settlement.getD "")) with
    | some s => some s.kod_yeshuv
    | none => args.kod_yeshuv
  else args.kod_yeshuv

/-- The date-parsing prelude of the tool in source order (submission,
publication, legacy `days_back`, committee); `none` models a `ValueError`
caught by the tool's `except`. -/
def toolDates (now : PyDate) (args : ToolArgs) :
    Option ((Option PyDate × Option PyDate) × (Option PyDate × Option PyDate) ×
      (Option PyDate × Option PyDate)) := do
  let sub ← parseDR args.submission_deadline
  let pub ← parseDR args.publication_date
  let subFrom :=
    if truthyInt args.days_back && sub.1.isNone then
      some (subDays now (args.days_back.getD 0))
    else sub.1
  let com ← parseDR args.committee_date
  pure ((subFrom, sub.2), pub, com)

/-- The `ClientParams` record passed by the façade to
`IsraeliLandAPI.search_tenders` (`tender_tools.py` lines 87–110): resolved
settlement code, name suppressed when the code is truthy,
`page_size = min(max_results, 1000)`, client default `page_number = 1`. -/
def toolOutboundParams (catalog : List Settlement) (now : PyDate) (args : ToolArgs) :
    Option ClientParams :=
  (toolDates now args).map (fun d =>
    let fk := resolveFinalKod catalog args
    { tender_number := args.tender_number
      tender_types := args.tender_types
      settlement := if truthyInt fk then none else args.settlement
      kod_yeshuv := fk
      neighborhood := args.neighborhood
      purpose := args.purpose
      region := args.region
      submission_date_from := d.1.1
      submission_date_to := d.1.2
      publication_date_from := d.2.1.1
      publication_date_to := d.2.1.2
      committee_date_from := d.2.2.1
      committee_date_to := d.2.2.2
      tender_purposes := args.tender_purposes
      regions := args.regions
      tender_statuses := args.tender_statuses
      priority_populations := args.priority_populations
      active_only := args.active_only
      quick_search := args.quick_search
      has_results := none
      sort_by := none
      sort_order := none
      page_size := min args.max_results 1000
      page_number := 1 })

/-- The outbound upstream payload a façade `search_tenders` call produces
(`none` when date parsing fails and no request is sent). -/
def toolOutboundPayload (catalog : List Settlement) (now : PyDate) (args : ToolArgs) :
    Option (List (String × JVal)) :=
  (toolOutboundParams catalog now args).map buildPayload

/-- `results[:max_results]` / `results.get("results", results)[:max_results]`
of `tender_tools.py` lines 113–116; `none` models the `TypeError` raised when
the sliced value is not sliceable (e.g. the dict itself). -/
def toolSliceTail (results : Resp) (max_results : Int) : Option JVal :=
  match results with
  | .list xs => some (.arr (pySlice xs 0 max_results))
  | .obj kvs =>
    match getKey kvs "results" with
    | some v => jvalSlice v 0 max_results
    | none => none

/-- Number of elements of the façade's `tender_list` (`len(tender_list)`). -/
def jvalLen : JVal → Nat
  | .arr xs => xs.length
  | .str s => s.length
  | _ => 0

/-- The façade `search_tenders` envelope: `{success: true, count, tenders,
search_summary}` on success, `{success: false, error, search_parameters}` on
any caught exception (the error text and the summary object are not referenced
by any claim and are not tracked). -/
inductive SearchResult where
  | ok : (count : Nat) → (tenders : JVal) → SearchResult
  | err : SearchResult

/-- The `count` field of the façade envelope (0 for the failure envelope,
which has no tenders). -/
def searchCount : SearchResult → Nat
  | .ok n _ => n
  | .err => 0

/-- The façade `search_tenders` tool (`tender_tools.py` lines 21–155),
parametrized by the settlement catalog, the wall clock (`datetime.now()`),
and the raw upstream response the mocked transport returns. -/
def toolSearchTenders (catalog : List Settlement) (now : PyDate) (args : ToolArgs)
    (raw : Resp) : SearchResult :=
  match toolOutboundParams catalog now args with
  | none => .err
  | some p =>
    match clientPaginate raw p.page_size p.page_number with
    | none => .err
    | some results =>
      match toolSliceTail results args.max_results with
      | none => .err
      | some t => .ok (jvalLen t) t

/-! ## Tool Façade: `get_tender_details` (`tender_tools.py` lines 157–169) -/

/-- An upstream HTTP response to `GET /MichrazDetailsApi/Get`. -/
structure HttpResp where
  status : Nat
  body : JVal

/-- `IsraeliLandAPI.get_tender_details` (lines 216–239): `raise_for_status`
turns 4xx/5xx into an exception, otherwise the JSON body is returned as-is;
the body is never inspected. -/
def clientGetTenderDetails (resp : HttpResp) : Except String JVal :=
  if 400 ≤ resp.status ∧ resp.status < 600 then
    .error "Failed to get tender details"
  else .ok resp.body

/-- The `get_tender_details` façade envelope. -/
inductive DetailsResult where
  | ok : (tender_id : Int) → (details : JVal) → DetailsResult
  | err : (tender_id : Int) → DetailsResult

/-- The `success` field of the details envelope. -/
def detailsSuccess : DetailsResult → Bool
  | .ok _ _ => true
  | .err _ => false

/-- The façade `get_tender_details` tool: wraps the client call outcome in the
uniform envelope, passing the payload through unchanged. -/
def toolGetTenderDetails (michraz_id : Int) (resp : HttpResp) : DetailsResult :=
  match clientGetTenderDetails resp with
  | .ok d => .ok michraz_id d
  | .error _ => .err michraz_id

/-! ## Concrete fixtures shared by scenario theorems -/

/-- A 12-record mock upstream result sequence (distinct tender ids). -/
def raw12 : List JVal := (List.range 12).map (fun i => JVal.num (20250001 + (i : Int)))

/-- A settlement catalog fragment carrying the Tel-Aviv entry of the static
table (code 5000). -/
def tlvCatalog : List Settlement := [⟨5000, "תל אביב"⟩]

/-- A fixed wall clock for the façade's `datetime.now()` parameter. -/
def now0 : PyDate := ⟨2026, 10, 12⟩

/-! ## Chained key-lookup lemmas over `buildPayload` -/

theorem getKey_append_none {a b : List (String × JVal)} {k : String}
    (h : getKey a k = none) : getKey (a ++ b) k = getKey b k := by
  rw [getKey_append, h]

theorem getKey_append_some {a b : List (String × JVal)} {k : String} {v : JVal}
    (h : getKey a k = some v) : getKey (a ++ b) k = some v := by
  rw [getKey_append, h]

theorem getKey_buildPayload_loc (p : ClientParams) {key : String}
    (hqs : key ≠ "ActiveQuickSearch") (ham : key ≠ "ActiveMichraz")
    (h1 : key ≠ "MisMichraz") (h2 : key ≠ "SugMichraz") (h3 : key ≠ "Shchuna")
    (h4 : key ≠ "YeudMichraz") (h5 : key ≠ "Merchav") (h6 : key ≠ "StatusMichraz")
    (h7 : key ≠ "PriorityPopulations") (h8 : key ≠ "CloseDate") (h9 : key ≠ "VaadaDate")
    (h10 : key ≠ "PirsumDate") (h11 : key ≠ "purpose") (h12 : key ≠ "region")
    (h13 : key ≠ "hasResults") (h14 : key ≠ "sortBy") (h15 : key ≠ "sortOrder") :
    getKey (buildPayload p) key = getKey (locSeg p.kod_yeshuv p.settlement) key := by
  rw [buildPayload]
  simp only [List.append_assoc]
  rw [getKey_append_none (getKey_flagSeg_ne hqs ham _ _),
    getKey_append_none (getKey_strSeg_ne (Ne.symm h1) _),
    getKey_append_none (getKey_listSeg_ne (Ne.symm h2) _)]
  cases hv : getKey (locSeg p.kod_yeshuv p.settlement) key with
  | some v => rw [getKey_append_some hv]
  | none =>
    rw [getKey_append_none hv,
      getKey_append_none (getKey_strSeg_ne (Ne.symm h3) _),
      getKey_append_none (getKey_listSeg_ne (Ne.symm h4) _),
      getKey_append_none (getKey_listSeg_ne (Ne.symm h5) _),
      getKey_append_none (getKey_listSeg_ne (Ne.symm h6) _),
      getKey_append_none (getKey_listSeg_ne (Ne.symm h7) _),
      getKey_append_none (getKey_dateSeg_ne (Ne.symm h8) _ _),
      getKey_append_none (getKey_dateSeg_ne (Ne.symm h9) _ _),
      getKey_append_none (getKey_dateSeg_ne (Ne.symm h10) _ _),
      getKey_append_none (getKey_condStrSeg_ne (Ne.symm h11) _ _),
      getKey_append_none (getKey_condStrSeg_ne (Ne.symm h12) _ _),
      getKey_append_none (getKey_boolSeg_ne (Ne.symm h13) _),
      getKey_append_none (getKey_strSeg_ne (Ne.symm h14) _),
      getKey_strSeg_ne (Ne.symm h15)]

theorem getKey_buildPayload_condStr (p : ClientParams) {key : String}
    (hqs : key ≠ "ActiveQuickSearch") (ham : key ≠ "ActiveMichraz")
    (h1 : key ≠ "MisMichraz") (h2 : key ≠ "SugMichraz")
    (hks : key ≠ "KodYeshuv") (hys : key ≠ "Yishuv") (h3 : key ≠ "Shchuna")
    (h4 : key ≠ "YeudMichraz") (h5 : key ≠ "Merchav") (h6 : key ≠ "StatusMichraz")
    (h7 : key ≠ "PriorityPopulations") (h8 : key ≠ "CloseDate") (h9 : key ≠ "VaadaDate")
    (h10 : key ≠ "PirsumDate")
    (h13 : key ≠ "hasResults") (h14 : key ≠ "sortBy") (h15 : key ≠ "sortOrder") :
    getKey (buildPayload p) key =
      match getKey (condStrSeg "purpose" p.purpose p.tender_purposes) key with
      | some v => some v
      | none => getKey (condStrSeg "region" p.region p.regions) key := by
  rw [buildPayload]
  simp only [List.append_assoc]
  rw [getKey_append_none (getKey_flagSeg_ne hqs ham _ _),
    getKey_append_none (getKey_strSeg_ne (Ne.symm h1) _),
    getKey_append_none (getKey_listSeg_ne (Ne.symm h2) _),
    getKey_append_none (getKey_locSeg_ne hks hys _ _),
    getKey_append_none (getKey_strSeg_ne (Ne.symm h3) _),
    getKey_append_none (getKey_listSeg_ne (Ne.symm h4) _),
    getKey_append_none (getKey_listSeg_ne (Ne.symm h5) _),
    getKey_append_none (getKey_listSeg_ne (Ne.symm h6) _),
    getKey_append_none (getKey_listSeg_ne (Ne.symm h7) _),
    getKey_append_none (getKey_dateSeg_ne (Ne.symm h8) _ _),
    getKey_append_none (getKey_dateSeg_ne (Ne.symm h9) _ _),
    getKey_append_none (getKey_dateSeg_ne (Ne.symm h10) _ _)]
  cases hv : getKey (condStrSeg "purpose" p.purpose p.tender_purposes) key with
  | some v => rw [getKey_append_some hv]
  | none =>
    rw [getKey_append_none hv]
    cases hw : getKey (condStrSeg "region" p.region p.regions) key with
    | some v => rw [getKey_append_some hw]
    | none =>
      rw [getKey_append_none hw,
        getKey_append_none (getKey_boolSeg_ne (Ne.symm h13) _),
        getKey_append_none (getKey_strSeg_ne (Ne.symm h14) _),
        getKey_strSeg_ne (Ne.symm h15)]

theorem getKey_buildPayload_tenderTypes (p : ClientParams) :
    getKey (buildPayload p) "SugMichraz" =
      getKey (listSeg "SugMichraz" p.tender_types) "SugMichraz" := by
  rw [buildPayload]
  simp only [List.append_assoc]
  rw [getKey_append_none (getKey_flagSeg_ne (by decide) (by decide) _ _),
    getKey_append_none (getKey_strSeg_ne (by decide) _)]
  cases hv : getKey (listSeg "SugMichraz" p.tender_types) "SugMichraz" with
  | some v => rw [getKey_append_some hv]
  | none =>
    rw [getKey_append_none hv,
      getKey_append_none (getKey_locSeg_ne (by decide) (by decide) _ _),
      getKey_append_none (getKey_strSeg_ne (by decide) _),
      getKey_append_none (getKey_listSeg_ne (by decide) _),
      getKey_append_none (getKey_listSeg_ne (by decide) _),
      getKey_append_none (getKey_listSeg_ne (by decide) _),
      getKey_append_none (getKey_listSeg_ne (by decide) _),
      getKey_append_none (getKey_dateSeg_ne (by decide) _ _),
      getKey_append_none (getKey_dateSeg_ne (by decide) _ _),
      getKey_append_none (getKey_dateSeg_ne (by decide) _ _),
      getKey_append_none (getKey_condStrSeg_ne (by decide) _ _),
      getKey_append_none (getKey_condStrSeg_ne (by decide) _ _),
      getKey_append_none (getKey_boolSeg_ne (by decide) _),
      getKey_append_none (getKey_strSeg_ne (by decide) _),
      getKey_strSeg_ne (by decide)]

theorem getKey_strSeg_self (k : String) (v : Option String) :
    getKey (strSeg k v) k = if truthyStr v then some (.str (v.getD "")) else none := by
  cases v with
  | none => rfl
  | some s => by_cases hs : s = "" <;> simp [strSeg, truthyStr, hs, getKey]

theorem getKey_condStrSeg_self (k : String) (v : Option String) (structured : Option (List Int)) :
    getKey (condStrSeg k v structured) k =
      if truthyStr v && !truthyList structured then some (.str (v.getD "")) else none := by
  by_cases hs : truthyList structured
  · simp [condStrSeg, hs, getKey]
  · simp [condStrSeg, hs, getKey_strSeg_self]

theorem getKey_buildPayload_KodYeshuv (p : ClientParams) :
    getKey (buildPayload p) "KodYeshuv" = getKey (locSeg p.kod_yeshuv p.settlement) "KodYeshuv" :=
  getKey_buildPayload_loc p (by decide) (by decide) (by decide) (by decide) (by decide)
    (by decide) (by decide) (by decide) (by decide) (by decide) (by decide) (by decide)
    (by decide) (by decide) (by decide) (by decide) (by decide)

theorem getKey_buildPayload_Yishuv (p : ClientParams) :
    getKey (buildPayload p) "Yishuv" = getKey (locSeg p.kod_yeshuv p.settlement) "Yishuv" :=
  getKey_buildPayload_loc p (by decide) (by decide) (by decide) (by decide) (by decide)
    (by decide) (by decide) (by decide) (by decide) (by decide) (by decide) (by decide)
    (by decide) (by decide) (by decide) (by decide) (by decide)

theorem getKey_buildPayload_purpose (p : ClientParams) :
    getKey (buildPayload p) "purpose" =
      getKey (condStrSeg "purpose" p.purpose p.tender_purposes) "purpose" := by
  rw [getKey_buildPayload_condStr p (by decide) (by decide) (by decide) (by decide) (by decide)
    (by decide) (by decide) (by decide) (by decide) (by decide) (by decide) (by decide)
    (by decide) (by decide) (by decide) (by decide) (by decide)]
  cases hv : getKey (condStrSeg "purpose" p.purpose p.tender_purposes) "purpose" with
  | some v => rfl
  | none => simp [getKey_condStrSeg_ne (show "region" ≠ "purpose" by decide)]

theorem getKey_buildPayload_region (p : ClientParams) :
    getKey (buildPayload p) "region" =
      getKey (condStrSeg "region" p.region p.regions) "region" := by
  rw [getKey_buildPayload_condStr p (by decide) (by decide) (by decide) (by decide) (by decide)
    (by decide) (by decide) (by decide) (by decide) (by decide) (by decide) (by decide)
    (by decide) (by decide) (by decide) (by decide) (by decide)]
  rw [getKey_condStrSeg_ne (show "purpose" ≠ "region" by decide)]

/-! ## Claim theorems -/

/-- C3: for a criteria set with no optional filter supplied and
`active_only=true`, the built payload is exactly the two boolean flags
`ActiveQuickSearch` and `ActiveMichraz` and nothing else (for either value of
the quick-search flag, and any client pagination parameters). -/
theorem claim_C3 (qs : Bool) (ps pn : Int) :
    buildPayload { active_only := true, quick_search := qs, page_size := ps, page_number := pn } =
      [("ActiveQuickSearch", JVal.bool qs), ("ActiveMichraz", JVal.bool true)] := by
  rfl

/-- C3 witness: the two-flag payload at a concrete instance. -/
theorem claim_C3_witness :
    buildPayload { active_only := true } =
      [("ActiveQuickSearch", JVal.bool false), ("ActiveMichraz", JVal.bool true)] :=
  claim_C3 false 100 1

/-- C1: (a) whenever the client is handed a non-zero settlement code, the
outbound payload carries `KodYeshuv` with that code and no `Yishuv` key;
(b) no payload the Query Builder produces ever contains both keys;
(c) the façade scenario: criteria `{settlement: "תל אביב", kod_yeshuv: none}`
against a catalog resolving that name to 5000 produce exactly the payload
`{ActiveQuickSearch: false, ActiveMichraz: false, KodYeshuv: 5000}` — with
`KodYeshuv = 5000` and no `Yishuv` key. -/
theorem claim_C1 :
    (∀ (p : ClientParams) (k : Int), p.kod_yeshuv = some k → k ≠ 0 →
      getKey (buildPayload p) "KodYeshuv" = some (.num k) ∧
      hasKey (buildPayload p) "Yishuv" = false) ∧
    (∀ p : ClientParams,
      ¬(hasKey (buildPayload p) "KodYeshuv" = true ∧ hasKey (buildPayload p) "Yishuv" = true)) ∧
    toolOutboundPayload tlvCatalog now0 { settlement := some "תל אביב", kod_yeshuv := none } =
      some [("ActiveQuickSearch", .bool false), ("ActiveMichraz", .bool false),
        ("KodYeshuv", .num 5000)] := by
  refine ⟨?_, ?_, ?_⟩
  · intro p k hk hk0
    constructor
    · rw [getKey_buildPayload_KodYeshuv, hk]
      simp [locSeg, hk0, getKey]
    · rw [hasKey, getKey_buildPayload_Yishuv, hk]
      simp [locSeg, hk0, getKey]
  · intro p h
    obtain ⟨h1, h2⟩ := h
    rw [hasKey, getKey_buildPayload_KodYeshuv] at h1
    rw [hasKey, getKey_buildPayload_Yishuv] at h2
    cases hko : p.kod_yeshuv with
    | none =>
      rw [hko] at h1
      rw [show locSeg none p.settlement = strSeg "Yishuv" p.settlement from rfl,
        getKey_strSeg_ne (by decide)] at h1
      exact absurd h1 (by decide)
    | some k =>
      by_cases hk0 : k = 0
      · rw [hko, hk0] at h1
        rw [show locSeg (some 0) p.settlement = strSeg "Yishuv" p.settlement from rfl,
          getKey_strSeg_ne (by decide)] at h1
        exact absurd h1 (by decide)
      · rw [hko] at h2
        have : locSeg (some k) p.settlement = [("KodYeshuv", .num k)] := by
          simp [locSeg, hk0]
        rw [this] at h2
        rw [show getKey [("KodYeshuv", JVal.num k)] "Yishuv" = none by simp [getKey]] at h2
        exact absurd h2 (by decide)
  · rfl

/-- C1 witness: the payload facts at a concrete non-zero settlement code. -/
theorem claim_C1_witness :
    getKey (buildPayload { kod_yeshuv := some 5000 }) "KodYeshuv" = some (.num 5000) ∧
    hasKey (buildPayload { kod_yeshuv := some 5000 }) "Yishuv" = false :=
  claim_C1.1 { kod_yeshuv := some 5000 } 5000 rfl (by decide)

/-- C8: the legacy free-text `purpose` key is present in the payload iff the
purpose string is truthy and the structured purpose-code list is absent/empty;
likewise for `region` against the structured region-code list. -/
theorem claim_C8 (p : ClientParams) :
    hasKey (buildPayload p) "purpose" = (truthyStr p.purpose && !truthyList p.tender_purposes) ∧
    hasKey (buildPayload p) "region" = (truthyStr p.region && !truthyList p.regions) := by
  constructor
  · rw [hasKey, getKey_buildPayload_purpose, getKey_condStrSeg_self]
    by_cases h : truthyStr p.purpose && !truthyList p.tender_purposes <;> simp [h]
  · rw [hasKey, getKey_buildPayload_region, getKey_condStrSeg_self]
    by_cases h : truthyStr p.region && !truthyList p.regions <;> simp [h]

/-- C8 witness: with a structured purpose list present, the legacy key is
omitted; with only the legacy string, it is emitted. -/
theorem claim_C8_witness :
    hasKey (buildPayload { purpose := some "מגורים", tender_purposes := some [1] }) "purpose"
        = false ∧
    hasKey (buildPayload { purpose := some "מגורים" }) "purpose" = true := by
  constructor
  · exact (claim_C8 { purpose := some "מגורים", tender_purposes := some [1] }).1
  · exact (claim_C8 { purpose := some "מגורים" }).1

/-- C9: the Query Builder treats falsy filter values exactly like absent ones —
replacing any string filter by `""`, any code-list filter by `[]`, or the
settlement code by `0` leaves the payload unchanged relative to `None`; in
particular `kod_yeshuv=0` with a non-empty settlement name emits the `Yishuv`
key (not `KodYeshuv=0`), and `tender_types=[]` emits no `SugMichraz` key. -/
theorem claim_C9 :
    (∀ p : ClientParams,
      buildPayload { p with tender_number := some "" } =
        buildPayload { p with tender_number := none } ∧
      buildPayload { p with settlement := some "" } =
        buildPayload { p with settlement := none } ∧
      buildPayload { p with neighborhood := some "" } =
        buildPayload { p with neighborhood := none } ∧
      buildPayload { p with purpose := some "" } =
        buildPayload { p with purpose := none } ∧
      buildPayload { p with region := some "" } =
        buildPayload { p with region := none } ∧
      buildPayload { p with sort_by := some "" } =
        buildPayload { p with sort_by := none } ∧
      buildPayload { p with sort_order := some "" } =
        buildPayload { p with sort_order := none } ∧
      buildPayload { p with kod_yeshuv := some 0 } =
        buildPayload { p with kod_yeshuv := none } ∧
      buildPayload { p with tender_types := some [] } =
        buildPayload { p with tender_types := none } ∧
      buildPayload { p with tender_purposes := some [] } =
        buildPayload { p with tender_purposes := none } ∧
      buildPayload { p with regions := some [] } =
        buildPayload { p with regions := none } ∧
      buildPayload { p with tender_statuses := some [] } =
        buildPayload { p with tender_statuses := none } ∧
      buildPayload { p with priority_populations := some [] } =
        buildPayload { p with priority_populations := none } ∧
      hasKey (buildPayload { p with tender_types := some [] }) "SugMichraz" = false) ∧
    (∀ (p : ClientParams) (s : String), s ≠ "" →
      getKey (buildPayload { p with kod_yeshuv := some 0, settlement := some s }) "Yishuv" =
        some (.str s) ∧
      hasKey (buildPayload { p with kod_yeshuv := some 0, settlement := some s }) "KodYeshuv" =
        false) := by
  constructor
  · intro p
    refine ⟨rfl, rfl, rfl, rfl, rfl, rfl, rfl, rfl, rfl, rfl, rfl, rfl, rfl, ?_⟩
    rw [hasKey, getKey_buildPayload_tenderTypes]
    rfl
  · intro p s hs
    constructor
    · rw [getKey_buildPayload_Yishuv]
      show getKey (strSeg "Yishuv" (some s)) "Yishuv" = some (.str s)
      simp [strSeg, hs, getKey]
    · rw [hasKey, getKey_buildPayload_KodYeshuv]
      show (getKey (strSeg "Yishuv" (some s)) "KodYeshuv").isSome = false
      rw [getKey_strSeg_ne (by decide)]
      rfl

/-- C9 witness: the `Yishuv`-not-`KodYeshuv` behavior at a concrete non-empty
settlement name with `kod_yeshuv = 0`. -/
theorem claim_C9_witness :
    getKey (buildPayload { kod_yeshuv := some 0, settlement := some "תל אביב" }) "Yishuv" =
      some (.str "תל אביב") ∧
    hasKey (buildPayload { kod_yeshuv := some 0, settlement := some "תל אביב" }) "KodYeshuv" =
      false :=
  claim_C9.2 {} "תל אביב" (by decide)

/-! ## Slice characterization lemmas -/

theorem pySlice_eq_drop_take {α : Type} (l : List α) (a s : Int) (ha : 0 ≤ a) (hs : 0 ≤ s) :
    pySlice l a (a + s) = (l.drop a.toNat).take s.toNat := by
  unfold pySlice pyNorm
  rw [if_neg (by omega), if_neg (by omega), Int.toNat_add ha hs]
  rw [List.drop_take]
  by_cases hal : a.toNat ≤ l.length
  · rw [show min a.toNat l.length = a.toNat by omega]
    rw [List.take_eq_take]
    have hld : (l.drop a.toNat).length = l.length - a.toNat := List.length_drop _ _
    omega
  · rw [show min a.toNat l.length = l.length by omega]
    rw [List.drop_length, List.drop_eq_nil_of_le (by omega)]
    simp

theorem pySlice_length_le {α : Type} (l : List α) (a s : Int) (ha : 0 ≤ a) (hs : 0 ≤ s) :
    (pySlice l a (a + s)).length ≤ s.toNat := by
  rw [pySlice_eq_drop_take l a s ha hs]
  simp [List.length_take]

theorem pySlice_le_length {α : Type} (l : List α) (a b : Int) :
    (pySlice l a b).length ≤ l.length := by
  unfold pySlice
  calc ((l.take (pyNorm b l.length)).drop (pyNorm a l.length)).length
      ≤ (l.take (pyNorm b l.length)).length := by simp [List.length_drop]
    _ ≤ l.length := by simp [List.length_take]

theorem map_replace_of_hasKey_false {l : List (String × JVal)} {k : String} {v : JVal}
    (h : hasKey l k = false) :
    l.map (fun kv => if kv.1 = k then (kv.1, v) else kv) = l := by
  induction l with
  | nil => rfl
  | cons kv rest ih =>
    obtain ⟨k1, v1⟩ := kv
    by_cases hk : k1 = k
    · exfalso
      simp [hasKey, getKey, hk] at h
    · simp only [List.map_cons, if_neg hk]
      rw [ih (by simpa [hasKey, getKey, hk] using h)]

theorem getKey_eq_none_of_hasKey_false {l : List (String × JVal)} {k : String}
    (h : hasKey l k = false) : getKey l k = none := by
  rw [hasKey] at h
  exact Option.not_isSome_iff_eq_none.mp (by simp [h])

/-- C4: the pagination adapter. For every page size `s > 0` and 1-indexed page
number `n ≥ 1`: a bare upstream sequence is replaced by the slice
`seq[(n-1)*s : n*s]` (equal to dropping `(n-1)*s` elements and taking `s`);
an envelope carrying a `results` field has exactly that field sliced in place
with every other field untouched; the slice never exceeds `s` elements; and
slicing past the end of the sequence yields `[]` rather than an error. -/
theorem claim_C4 (seq : List JVal) (s n : Int) (hs : 0 < s) (hn : 1 ≤ n) :
    clientPaginate (.list seq) s n =
      some (.list ((seq.drop ((n - 1) * s).toNat).take s.toNat)) ∧
    (∀ (pre post : List (String × JVal)) (xs : List JVal),
      hasKey pre "results" = false → hasKey post "results" = false →
      clientPaginate (.obj (pre ++ ("results", JVal.arr xs) :: post)) s n =
        some (.obj (pre ++
          ("results", JVal.arr ((xs.drop ((n - 1) * s).toNat).take s.toNat)) :: post))) ∧
    ((seq.drop ((n - 1) * s).toNat).take s.toNat).length ≤ s.toNat ∧
    ((seq.length : Int) ≤ (n - 1) * s →
      (seq.drop ((n - 1) * s).toNat).take s.toNat = []) := by
  have ha : (0 : Int) ≤ (n - 1) * s := mul_nonneg (by omega) (by omega)
  refine ⟨?_, ?_, ?_, ?_⟩
  · show some (Resp.list (pySlice seq ((n - 1) * s) ((n - 1) * s + s))) =
      some (Resp.list ((seq.drop ((n - 1) * s).toNat).take s.toNat))
    rw [pySlice_eq_drop_take seq _ s ha (by omega)]
  · intro pre post xs hpre hpost
    have hget : getKey (pre ++ ("results", JVal.arr xs) :: post) "results" =
        some (.arr xs) := by
      rw [getKey_append_none (getKey_eq_none_of_hasKey_false hpre)]
      simp [getKey]
    show (if hasKey (pre ++ ("results", JVal.arr xs) :: post) "results" = true then _
      else _) = _
    rw [if_pos (by rw [hasKey, hget]; rfl), hget]
    show some (Resp.obj ((pre ++ ("results", JVal.arr xs) :: post).map _)) = _
    rw [List.map_append]
    rw [map_replace_of_hasKey_false hpre]
    simp only [List.map_cons, if_pos rfl]
    rw [map_replace_of_hasKey_false hpost]
    rw [pySlice_eq_drop_take xs _ s ha (by omega)]
    simp
  · simp [List.length_take]
  · intro hlen
    rw [List.drop_eq_nil_of_le (by omega)]
    simp

/-- C4 witness: the 12-element scenario — pages 1 and 2 are the first two
disjoint 5-element slices and page 3 is the remaining 2 elements. -/
theorem claim_C4_witness :
    clientPaginate (.list raw12) 5 1 = some (.list (raw12.take 5)) ∧
    clientPaginate (.list raw12) 5 2 = some (.list ((raw12.drop 5).take 5)) ∧
    clientPaginate (.list raw12) 5 3 = some (.list ((raw12.drop 10).take 5)) := by
  refine ⟨?_, ?_, ?_⟩
  · have h := (claim_C4 raw12 5 1 (by decide) (by decide)).1
    simpa using h
  · have h := (claim_C4 raw12 5 2 (by decide) (by decide)).1
    simpa using h
  · have h := (claim_C4 raw12 5 3 (by decide) (by decide)).1
    simpa using h

/-- C2 counterexample: the façade `search_tenders` argument model has no
`page_size`/`page_number` fields, so a call supplying them is the default-
argument call (pydantic ignores unknown keys); on a 12-record upstream
sequence it returns all 12 records in the success envelope, not 2. -/
theorem claim_C2_cex :
    toolSearchTenders tlvCatalog now0 {} (Resp.list raw12) = .ok 12 (.arr raw12) ∧
    (12 : Nat) ≠ 2 :=
  ⟨rfl, by decide⟩

/-- C2 (amended): pagination with `page_size=5, page_number=3` lives on the
client `search_tenders`, which over a 12-record upstream list returns exactly
the records at 1-based positions 11 and 12 of the source sequence. -/
theorem claim_C2_amended :
    clientPaginate (Resp.list raw12) 5 3 = some (.list (raw12.drop 10)) ∧
    raw12.drop 10 = [JVal.num 20250011, JVal.num 20250012] :=
  ⟨rfl, rfl⟩

/-! ## Settlement resolver claims -/

/-- The `partial_matches` list of the resolver envelope (empty for the other
envelope shapes). -/
def kodHits : KodResult → List (String × Int)
  | .nearHits _ hits => hits
  | _ => []

/-- C5: the settlement resolver. When an exact (whitespace-trimmed,
case-sensitive) catalog match exists, it returns that entry's code with
`match_type = "exact"`; otherwise it collects every catalog entry related to
the query by case-insensitive substring containment in either direction, in
catalog order, and returns at most the first 10 of them with
`match_type = "partial"`. -/
theorem claim_C5 (catalog : List Settlement) (raw_name : String) :
    (∀ s : Settlement, exactFind catalog (pyStrip raw_name) = some s →
      getKodYeshuv catalog raw_name = .exactHit (pyStrip raw_name) s.kod_yeshuv ∧
      matchTypeOf (getKodYeshuv catalog raw_name) = some "exact") ∧
    (exactFind catalog (pyStrip raw_name) = none →
      catalog.filter (nearPred (pyStrip raw_name)) ≠ [] →
      getKodYeshuv catalog raw_name =
        .nearHits (pyStrip raw_name)
          (((catalog.filter (nearPred (pyStrip raw_name))).map
            (fun s => (s.name_hebrew, s.kod_yeshuv))).take 10) ∧
      matchTypeOf (getKodYeshuv catalog raw_name) = some "partial" ∧
      (kodHits (getKodYeshuv catalog raw_name)).length ≤ 10) := by
  constructor
  · intro s hs
    rw [show getKodYeshuv catalog raw_name = .exactHit (pyStrip raw_name) s.kod_yeshuv by
      unfold getKodYeshuv
      rw [hs]]
    exact ⟨rfl, rfl⟩
  · intro hex hfil
    have hne : ((catalog.filter (nearPred (pyStrip raw_name))).map
        (fun s => (s.name_hebrew, s.kod_yeshuv))).isEmpty = false := by
      rw [List.isEmpty_eq_false]
      simp only [ne_eq, List.map_eq_nil_iff]
      exact hfil
    have hres : getKodYeshuv catalog raw_name =
        .nearHits (pyStrip raw_name)
          (((catalog.filter (nearPred (pyStrip raw_name))).map
            (fun s => (s.name_hebrew, s.kod_yeshuv))).take 10) := by
      unfold getKodYeshuv
      rw [hex]
      simp only [hne]
      rfl
    refine ⟨hres, by rw [hres]; rfl, ?_⟩
    rw [hres]
    simp [kodHits, List.length_take]

/-- C5 witness: an exact hit for the full Tel-Aviv name and a ≤10-element
partial hit for a substring of it, against the concrete catalog fragment. -/
theorem claim_C5_witness :
    getKodYeshuv tlvCatalog "תל אביב" = .exactHit "תל אביב" 5000 ∧
    matchTypeOf (getKodYeshuv tlvCatalog "תל אביב") = some "exact" ∧
    getKodYeshuv tlvCatalog "תל" = .nearHits "תל" [("תל אביב", 5000)] ∧
    matchTypeOf (getKodYeshuv tlvCatalog "תל") = some "partial" := by
  have h1 := (claim_C5 tlvCatalog "תל אביב").1 ⟨5000, "תל אביב"⟩ rfl
  have h2 := (claim_C5 tlvCatalog "תל").2 rfl (by intro h; exact absurd (congrArg List.length h) (by decide))
  exact ⟨h1.1, h1.2, h2.1, h2.2.1⟩

/-- C7: when a settlement name has neither an exact nor a partial catalog
match, the lookup returns the structured failure envelope — `success: false`,
an error message naming the searched string, and the fixed suggestion string —
and, the embedding being a total function, no exception reaches the caller. -/
theorem claim_C7 (catalog : List Settlement) (raw_name : String)
    (hex : exactFind catalog (pyStrip raw_name) = none)
    (hnear : catalog.filter (nearPred (pyStrip raw_name)) = []) :
    getKodYeshuv catalog raw_name =
      .noHit (pyStrip raw_name)
        ("No settlement found matching \x27" ++ pyStrip raw_name ++ "\x27")
        "Try using the exact Hebrew name or check the settlement name spelling" ∧
    successOf (getKodYeshuv catalog raw_name) = false ∧
    matchTypeOf (getKodYeshuv catalog raw_name) = none := by
  have hres : getKodYeshuv catalog raw_name =
      .noHit (pyStrip raw_name)
        ("No settlement found matching \x27" ++ pyStrip raw_name ++ "\x27")
        "Try using the exact Hebrew name or check the settlement name spelling" := by
    unfold getKodYeshuv
    rw [hex, hnear]
    rfl
  exact ⟨hres, by rw [hres]; rfl, by rw [hres]; rfl⟩

/-- C7 witness: the failure envelope for an unrelated query against the
concrete catalog fragment. -/
theorem claim_C7_witness :
    getKodYeshuv tlvCatalog "xyz" =
      .noHit "xyz" ("No settlement found matching \x27xyz\x27")
        "Try using the exact Hebrew name or check the settlement name spelling" ∧
    successOf (getKodYeshuv tlvCatalog "xyz") = false := by
  have h := claim_C7 tlvCatalog "xyz" rfl rfl
  exact ⟨h.1, h.2.1⟩

/-! ## Detail-lookup pass-through -/

/-- The embedded "tender does not exist" HTTP-200 body of the detail endpoint
(`MichrazID: 0` plus a `MessageDetails` object). -/
def notFoundPayload : JVal :=
  .obj [("MichrazID", .num 0),
    ("MessageDetails", .obj [("messageCode", .num 1), ("messageText", .str "מכרז לא קיים")])]

/-- C6: an HTTP-200 detail response is passed through unchanged in a
`success: true` envelope whatever its body says — in particular the embedded
not-found body for `get_tender_details(-1)` is surfaced intact, never
reinterpreted as `success: false`. -/
theorem claim_C6 (michraz_id : Int) (d : JVal) :
    toolGetTenderDetails michraz_id ⟨200, d⟩ = .ok michraz_id d ∧
    detailsSuccess (toolGetTenderDetails michraz_id ⟨200, d⟩) = true ∧
    toolGetTenderDetails (-1) ⟨200, notFoundPayload⟩ = .ok (-1) notFoundPayload := by
  exact ⟨rfl, rfl, rfl⟩

/-! ## Result-count bound of the façade search -/

theorem toolOutboundParams_fields {catalog : List Settlement} {now : PyDate}
    {args : ToolArgs} {p : ClientParams}
    (h : toolOutboundParams catalog now args = some p) :
    p.page_size = min args.max_results 1000 ∧ p.page_number = 1 := by
  unfold toolOutboundParams at h
  cases hd : toolDates now args with
  | none => rw [hd] at h; exact absurd h (by simp)
  | some d =>
    rw [hd] at h
    simp only [Option.map_some] at h
    injection h with h
    rw [← h]
    exact ⟨rfl, rfl⟩

theorem getKey_map_replace {l : List (String × JVal)} {k : String} {v1 : JVal}
    (h : hasKey l k = true) :
    getKey (l.map (fun kv => if kv.1 = k then (kv.1, v1) else kv)) k = some v1 := by
  induction l with
  | nil => simp [hasKey, getKey] at h
  | cons kv rest ih =>
    obtain ⟨k1, w⟩ := kv
    by_cases hk : k1 = k
    · subst hk
      simp only [List.map_cons]
      simp [getKey]
    · simp only [List.map_cons, if_neg hk]
      rw [show getKey (((k1, w)) :: rest.map _) k =
          getKey (rest.map (fun kv => if kv.1 = k then (kv.1, v1) else kv)) k by
        simp [getKey, hk]]
      exact ih (by simpa [hasKey, getKey, hk] using h)

theorem jvalSlice_len_le {v v1 : JVal} {a b : Int}
    (h : jvalSlice v a b = some v1) : jvalLen v1 ≤ jvalLen v := by
  cases v with
  | arr xs =>
    simp only [jvalSlice] at h
    injection h with h
    rw [← h]
    exact pySlice_le_length xs a b
  | str s =>
    simp only [jvalSlice] at h
    injection h with h
    rw [← h]
    show (pySlice s.toList a b).length ≤ s.length
    exact pySlice_le_length s.toList a b
  | null => simp [jvalSlice] at h
  | bool b0 => simp [jvalSlice] at h
  | num n => simp [jvalSlice] at h
  | obj kvs => simp [jvalSlice] at h

theorem jvalSlice_bound {v v1 : JVal} {a s : Int} (ha : 0 ≤ a) (hs : 0 ≤ s)
    (h : jvalSlice v a (a + s) = some v1) : jvalLen v1 ≤ s.toNat := by
  cases v with
  | arr xs =>
    simp only [jvalSlice] at h
    injection h with h
    rw [← h]
    exact pySlice_length_le xs a s ha hs
  | str s0 =>
    simp only [jvalSlice] at h
    injection h with h
    rw [← h]
    show (pySlice s0.toList a (a + s)).length ≤ s.toNat
    exact pySlice_length_le s0.toList a s ha hs
  | null => simp [jvalSlice] at h
  | bool b0 => simp [jvalSlice] at h
  | num n => simp [jvalSlice] at h
  | obj kvs => simp [jvalSlice] at h

theorem toolCount_le {raw : Resp} {ps maxr : Int} {results : Resp} {t : JVal}
    (hps : 0 ≤ ps)
    (hc : clientPaginate raw ps 1 = some results)
    (ht : toolSliceTail results maxr = some t) :
    jvalLen t ≤ ps.toNat := by
  cases raw with
  | list data =>
    simp only [clientPaginate] at hc
    injection hc with hc
    rw [← hc] at ht
    simp only [toolSliceTail] at ht
    injection ht with ht
    rw [← ht]
    show (pySlice (pySlice data ((1 - 1) * ps) ((1 - 1) * ps + ps)) 0 maxr).length ≤ ps.toNat
    calc (pySlice (pySlice data ((1 - 1) * ps) ((1 - 1) * ps + ps)) 0 maxr).length
        ≤ (pySlice data ((1 - 1) * ps) ((1 - 1) * ps + ps)).length := pySlice_le_length _ _ _
      _ ≤ ps.toNat := pySlice_length_le data _ ps (by simp) hps
  | obj kvs =>
    simp only [clientPaginate] at hc
    by_cases hk : hasKey kvs "results" = true
    · rw [if_pos hk] at hc
      cases hv : getKey kvs "results" with
      | none =>
        rw [hv] at hc
        injection hc with hc
        rw [← hc] at ht
        rw [show toolSliceTail (Resp.obj kvs) maxr = none by simp [toolSliceTail, hv]] at ht
        exact absurd ht (by simp)
      | some v =>
        rw [hv] at hc
        have hc2 : Option.map
            (fun v1 => Resp.obj (kvs.map (fun kv => if kv.1 = "results" then (kv.1, v1) else kv)))
            (jvalSlice v ((1 - 1) * ps) ((1 - 1) * ps + ps)) = some results := hc
        cases hs : jvalSlice v ((1 - 1) * ps) ((1 - 1) * ps + ps) with
        | none =>
          rw [hs] at hc2
          have hcn : (none : Option Resp) = some results := hc2
          exact Option.noConfusion hcn
        | some v1 =>
          rw [hs] at hc2
          have hc3 : some (Resp.obj
              (kvs.map (fun kv => if kv.1 = "results" then (kv.1, v1) else kv))) =
              some results := hc2
          injection hc3 with hc3
          rw [← hc3] at ht
          simp only [toolSliceTail] at ht
          rw [getKey_map_replace hk] at ht
          have h1 : jvalLen v1 ≤ ps.toNat := jvalSlice_bound (by simp) hps hs
          have h2 : jvalLen t ≤ jvalLen v1 := jvalSlice_len_le ht
          omega
    · rw [if_neg hk] at hc
      injection hc with hc
      rw [← hc] at ht
      have hg : getKey kvs "results" = none :=
        getKey_eq_none_of_hasKey_false (by simpa using hk)
      rw [show toolSliceTail (Resp.obj kvs) maxr = none by simp [toolSliceTail, hg]] at ht
      exact absurd ht (by simp)

/-- C10 (amended): for every façade `search_tenders` call with
`max_results ≥ 0`, the number of tenders in the returned envelope is at most
`min(max_results, 1000)` — the façade requests
`page_size = min(max_results, 1000)` at the client's default `page_number = 1`
and then truncates to `max_results`, so even when upstream returns more
records at most 1000 come back. -/
theorem claim_C10 (catalog : List Settlement) (now : PyDate) (args : ToolArgs)
    (raw : Resp) (h : 0 ≤ args.max_results) :
    (searchCount (toolSearchTenders catalog now args raw) : Int) ≤
      min args.max_results 1000 := by
  have hmin : (0 : Int) ≤ min args.max_results 1000 := le_min h (by omega)
  cases hp : toolOutboundParams catalog now args with
  | none =>
    rw [show toolSearchTenders catalog now args raw = .err by
      simp [toolSearchTenders, hp]]
    simpa [searchCount] using hmin
  | some p =>
    obtain ⟨hps, hpn⟩ := toolOutboundParams_fields hp
    cases hc : clientPaginate raw p.page_size p.page_number with
    | none =>
      rw [show toolSearchTenders catalog now args raw = .err by
        simp [toolSearchTenders, hp, hc]]
      simpa [searchCount] using hmin
    | some results =>
      cases ht : toolSliceTail results args.max_results with
      | none =>
        rw [show toolSearchTenders catalog now args raw = .err by
          simp [toolSearchTenders, hp, hc, ht]]
        simpa [searchCount] using hmin
      | some t =>
        rw [show toolSearchTenders catalog now args raw = .ok (jvalLen t) t by
          simp [toolSearchTenders, hp, hc, ht]]
        rw [hpn] at hc
        have hbound : jvalLen t ≤ p.page_size.toNat :=
          toolCount_le (by rw [hps]; exact hmin) hc ht
        rw [hps] at hbound
        have hcast : ((min args.max_results 1000).toNat : Int) = min args.max_results 1000 :=
          Int.toNat_of_nonneg hmin
        show ((jvalLen t : Nat) : Int) ≤ min args.max_results 1000
        omega

/-- C10 witness: the bound at a concrete call (`max_results = 3`, 12 upstream
records). -/
theorem claim_C10_witness :
    (searchCount (toolSearchTenders tlvCatalog now0 { max_results := 3 }
      (Resp.list raw12)) : Int) ≤ min (3 : Int) 1000 :=
  claim_C10 tlvCatalog now0 { max_results := 3 } (Resp.list raw12) (by decide)

/-- C10 counterexample: with `max_results = -1` (the argument model accepts any
int) the façade returns 10 of 12 upstream records — Python's negative slice
semantics drop one element at each of the two slicing steps — which exceeds
`min(max_results, 1000) = -1`, so the bound does not hold for every call. -/
theorem claim_C10_cex :
    toolSearchTenders tlvCatalog now0 { max_results := -1 } (Resp.list raw12) =
      .ok 10 (.arr (raw12.take 10)) ∧
    ¬((10 : Int) ≤ min (-1 : Int) 1000) := by
  exact ⟨rfl, by decide⟩
